import Mathlib

/-!
Verification development for the facturacion-api repository.

The repository exposes read-only invoice / performance / zone-statistics
query tools over PostgreSQL through three near-identical servers:

* `facturacion_server.py` — HTTP JSON API (`consultar_facturas`);
* `agent_server.py`      — tool-calling server (`consultar_mis_facturas`,
  `buscar_factura_por_propiedad`), authorization key from configuration;
* `agent_server_sse.py`  — tool-calling SSE server, resolving the caller
  email to a CIF through `resolve_cif_from_email` (the gatekeeper);
* `performance_server.py` — HTTP performance / zone endpoints.

The shallow embedding below models the request validation, query building
(template string plus positional argument list), the row-source semantics
of the emitted queries (filter / order / limit over an in-memory table),
and the result formatting, faithfully to the Python source.  Dates travel
as strings exactly as in the source; Python string comparison is modelled
by code-point lexicographic comparison; monetary values and similarity
scores are modelled as rationals; `None`-able SQL aggregates are modelled
as `Option` values.
-/

namespace Facturacion

/-! ### Generic executable primitives

Python / SQL primitives re-implemented by structural recursion so that all
definitions evaluate inside the kernel. -/

/-- Code-point lexicographic strict order on character lists: the order
Python uses for `str < str` (and the order Postgres gives canonical
`YYYY-MM-DD` date strings). -/
def lexLt : List Char → List Char → Bool
  | [], [] => false
  | [], _ :: _ => true
  | _ :: _, [] => false
  | a :: as, b :: bs =>
      if a.toNat < b.toNat then true
      else if b.toNat < a.toNat then false
      else lexLt as bs

/-- Python `a < b` on strings. -/
def strLt (a b : String) : Bool := lexLt a.data b.data

/-- Python `a > b` on strings (used by the date-range validation). -/
def strGt (a b : String) : Bool := strLt b a

/-- Python `a <= b` on strings (total order, so `¬ b < a`). -/
def strLe (a b : String) : Bool := !(strLt b a)

/-- ASCII lower-casing of one character, as SQL `LOWER` / Python `.lower()`
act on the ASCII range used by the stored emails. -/
def charLower (c : Char) : Char :=
  if 65 ≤ c.toNat && c.toNat ≤ 90 then Char.ofNat (c.toNat + 32) else c

/-- Lower-casing of a string (`LOWER(email)` in the gatekeeper query). -/
def strLower (s : String) : String := ⟨s.data.map charLower⟩

/-- `p` is a prefix of `l` (Boolean). -/
def isPrefixOfB : List Char → List Char → Bool
  | [], _ => true
  | _ :: _, [] => false
  | a :: as, b :: bs => a == b && isPrefixOfB as bs

/-- `p` occurs as a contiguous substring of `l` (Boolean); the semantics of
SQL `ILIKE %p%` after both sides are lower-cased. -/
def isInfixB (p : List Char) : List Char → Bool
  | [] => isPrefixOfB p []
  | c :: t => isPrefixOfB p (c :: t) || isInfixB p t

/-- Insertion step of a descending insertion sort parameterised by a
strict "greater" test; models the row order delivered by `ORDER BY … DESC`. -/
def insertDesc (gt : α → α → Bool) (x : α) : List α → List α
  | [] => [x]
  | y :: ys => if gt x y then x :: y :: ys else y :: insertDesc gt x ys

/-- Descending sort by the given "greater" test. -/
def sortDesc (gt : α → α → Bool) (l : List α) : List α :=
  l.foldr (insertDesc gt) []

/-- A positional query argument as handed to the driver (`params` list). -/
inductive Param where
  | str (s : String)
  | int (n : Int)
deriving Repr, DecidableEq

/-- Count of `%s` placeholders in a template, skipping the escaped `%%`
(the trigram operator is written `%%` in the source and is not a
placeholder), exactly as psycopg scans the template. -/
def countPSAux : List Char → Nat
  | '%' :: '%' :: rest => countPSAux rest
  | '%' :: 's' :: rest => countPSAux rest + 1
  | _ :: rest => countPSAux rest
  | [] => 0

/-- Placeholder count of a template string. -/
def countPS (s : String) : Nat := countPSAux s.data

/-! ### Date validation (`validar_fecha`, facturacion_server.py lines 20-26
and agent_server.py lines 37-43)

`validar_fecha` calls `datetime.strptime(fecha_str, "%Y-%m-%d")` and
returns `False` exactly on `ValueError`.  CPython's `strptime` compiles
the format to the regex `\d\d\d\d - (1[0-2]|0[1-9]|[1-9]) -
(3[01]|[12]\d|0[1-9]|[1-9])` (whitespace added), requires the match to
consume the whole string, and then builds a `datetime`, which additionally
requires a real calendar date with year at least 1.  In particular a
one-digit month or day is accepted. -/

/-- Character classes seen by the date parser. -/
inductive DTok where
  | dig (n : Nat)
  | dash
  | other
deriving Repr, DecidableEq

/-- Tokenize one character: ASCII digit, the literal dash of the format,
or anything else. -/
def dtok (c : Char) : DTok :=
  if c == '-' then .dash
  else if c.isDigit then .dig (c.toNat - 48)
  else .other

/-- Gregorian leap-year rule used by `datetime`. -/
def isLeap (y : Nat) : Bool := (y % 4 == 0 && y % 100 != 0) || y % 400 == 0

/-- Days in a month, as `datetime` validates the day component. -/
def daysInMonth (y m : Nat) : Nat :=
  if m == 2 then (if isLeap y then 29 else 28)
  else if m == 4 || m == 6 || m == 9 || m == 11 then 30
  else 31

/-- `datetime(y, m, d)` succeeds: year at least `MINYEAR = 1`, month in
range, day within the month. -/
def validDate (y m d : Nat) : Bool :=
  decide (1 ≤ y) && decide (1 ≤ m) && decide (m ≤ 12)
  && decide (1 ≤ d) && decide (d ≤ daysInMonth y m)

/-- The two-digit month alternatives `1[0-2] | 0[1-9]` of the compiled
format regex. -/
def monthTok2 (a b : Nat) : Bool :=
  (a == 1 && decide (b ≤ 2)) || (a == 0 && decide (1 ≤ b))

/-- The two-digit day alternatives `3[01] | [12]\d | 0[1-9]`. -/
def dayTok2 (a b : Nat) : Bool :=
  (a == 3 && decide (b ≤ 1)) || a == 1 || a == 2 || (a == 0 && decide (1 ≤ b))

/-- `validar_fecha` from the source: `strptime(s, "%Y-%m-%d")` succeeds.
Exactly four year digits; month and day each one or two digits following
the regex alternatives; nothing left over; calendar-valid date. -/
def validar_fecha (s : String) : Bool :=
  match s.data.map dtok with
  | [.dig a, .dig b, .dig c, .dig d, .dash, .dig m1, .dig m2, .dash, .dig e1, .dig e2] =>
      monthTok2 m1 m2 && dayTok2 e1 e2
      && validDate (1000*a + 100*b + 10*c + d) (10*m1 + m2) (10*e1 + e2)
  | [.dig a, .dig b, .dig c, .dig d, .dash, .dig m1, .dash, .dig e1, .dig e2] =>
      (m1 != 0) && dayTok2 e1 e2
      && validDate (1000*a + 100*b + 10*c + d) m1 (10*e1 + e2)
  | [.dig a, .dig b, .dig c, .dig d, .dash, .dig m1, .dig m2, .dash, .dig e1] =>
      monthTok2 m1 m2 && (e1 != 0)
      && validDate (1000*a + 100*b + 10*c + d) (10*m1 + m2) e1
  | [.dig a, .dig b, .dig c, .dig d, .dash, .dig m1, .dash, .dig e1] =>
      (m1 != 0) && (e1 != 0)
      && validDate (1000*a + 100*b + 10*c + d) m1 e1
  | _ => false

/-- Modelled from the spec's words, for comparison with `validar_fecha`:
a string "matching the YYYY-MM-DD calendar-date format" — exactly four
year digits, two month digits, two day digits, separated by dashes, and a
valid calendar date. -/
def matchesStrictYYYYMMDD (s : String) : Bool :=
  match s.data.map dtok with
  | [.dig a, .dig b, .dig c, .dig d, .dash, .dig m1, .dig m2, .dash, .dig e1, .dig e2] =>
      validDate (1000*a + 100*b + 10*c + d) (10*m1 + m2) (10*e1 + e2)
  | _ => false

/-! ### Filter criteria and shared validation -/

/-- Python truthiness of an `Optional[str]`: `None` and `""` are falsy.
All `if estado:` / `if req.fecha_inicio:` guards in the source use this. -/
def truthyS : Option String → Bool
  | none => false
  | some s => s != ""

/-- Python truthiness of an `Optional[int]`: `None` and `0` are falsy
(`if req.anyo:` in performance_server.py line 89). -/
def truthyI : Option Int → Bool
  | none => false
  | some n => n != 0

/-- `estado and estado not in ['PENDIENTE', 'PAGADA']` — the status check
shared by all three invoice endpoints. -/
def checkEstado (estado : Option String) : Bool :=
  truthyS estado && estado.getD "" != "PENDIENTE" && estado.getD "" != "PAGADA"

/-- The body of `FacturasRequest` (facturacion_server.py lines 29-33);
the tool-calling servers take the same parameters positionally. -/
structure FacturasRequest where
  estado : Option String := none
  fecha_inicio : Option String := none
  fecha_fin : Option String := none
  limit : Int := 5
deriving Repr, DecidableEq

/-- An `HTTPException` as raised by the HTTP servers. -/
structure HErr where
  status : Nat
  detail : String
deriving Repr, DecidableEq

/-- 400 error for an invalid status (facturacion_server.py line 93). -/
def errEstado : HErr :=
  ⟨400, "Estado inv\xe1lido. Usa \x27PENDIENTE\x27 o \x27PAGADA\x27."⟩

/-- 400 error for a malformed `fecha_inicio` (line 97). -/
def errFechaInicio : HErr :=
  ⟨400, "Formato de fecha_inicio inv\xe1lido. Usa \x27YYYY-MM-DD\x27 (ej: 2024-11-01)."⟩

/-- 400 error for a malformed `fecha_fin` (line 100). -/
def errFechaFin : HErr :=
  ⟨400, "Formato de fecha_fin inv\xe1lido. Usa \x27YYYY-MM-DD\x27 (ej: 2024-11-30)."⟩

/-- 400 error for an inverted date range (line 104). -/
def errRango : HErr :=
  ⟨400, "La fecha_inicio no puede ser posterior a fecha_fin."⟩

/-- The sequential validation of `consultar_facturas`
(facturacion_server.py lines 91-104): status, then each date format, then
the range, each `raise` ending the request immediately. -/
def validarConsulta (req : FacturasRequest) : Option HErr :=
  if checkEstado req.estado then some errEstado
  else if truthyS req.fecha_inicio && !validar_fecha (req.fecha_inicio.getD "") then
    some errFechaInicio
  else if truthyS req.fecha_fin && !validar_fecha (req.fecha_fin.getD "") then
    some errFechaFin
  else if truthyS req.fecha_inicio && truthyS req.fecha_fin
      && strGt (req.fecha_inicio.getD "") (req.fecha_fin.getD "") then
    some errRango
  else none

/-! ### The invoices view and query execution -/

/-- One row of `view_ai_facturas`.  `fecha_emision` is kept as its
canonical `YYYY-MM-DD` string (code-point comparison then agrees with the
date comparison Postgres performs); `total` is kept as its rendered
string, no arithmetic is ever done on it. -/
structure Factura where
  emisor_cif : String
  numero_factura : String
  estado_legible : String
  fecha_emision : String
  moneda : String
  total : String
  emisor_direccion_calle : String
deriving Repr, DecidableEq

/-- The five columns projected by the invoice SELECT. -/
structure FacturaRow where
  numero_factura : String
  estado_legible : String
  fecha_emision : String
  moneda : String
  total : String
deriving Repr, DecidableEq

/-- Projection of the SELECT column list. -/
def proj (f : Factura) : FacturaRow :=
  ⟨f.numero_factura, f.estado_legible, f.fecha_emision, f.moneda, f.total⟩

/-- The WHERE clause of the invoice query: authorization key always, the
optional predicates only when the corresponding filter is present. -/
def matchesFiltros (req : FacturasRequest) (key : String) (f : Factura) : Bool :=
  f.emisor_cif == key
  && (!truthyS req.estado || f.estado_legible == req.estado.getD "")
  && (!truthyS req.fecha_inicio || strLe (req.fecha_inicio.getD "") f.fecha_emision)
  && (!truthyS req.fecha_fin || strLe f.fecha_emision (req.fecha_fin.getD ""))

/-- `ORDER BY fecha_emision DESC`. -/
def gtFecha (a b : Factura) : Bool := strLt b.fecha_emision a.fecha_emision

/-- Row-source semantics of the built invoice query: filter by the WHERE
clause, order chronologically descending, apply the LIMIT, project the
selected columns. -/
def execFacturas (req : FacturasRequest) (key : String) (db : List Factura) : List FacturaRow :=
  ((sortDesc gtFecha (db.filter (matchesFiltros req key))).take req.limit.toNat).map proj

/-! ### The invoice query builder (facturacion_server.py lines 109-129,
agent_server.py lines 85-106)

The source concatenates SQL fragments and appends to `params` in
lock-step; whitespace of the multi-line literals is normalized here, the
fragment texts and the placeholder structure are kept verbatim. -/

/-- Base statement: always predicated on the authorization key. -/
def baseConsultaQuery : String :=
  "SELECT numero_factura, estado_legible, fecha_emision, moneda, total FROM view_ai_facturas WHERE emisor_cif = %s "

/-- Fragment appended when `estado` is present. -/
def fragEstado : String := " AND estado_legible = %s"

/-- Fragment appended when `fecha_inicio` is present. -/
def fragFechaInicio : String := " AND fecha_emision >= %s"

/-- Fragment appended when `fecha_fin` is present. -/
def fragFechaFin : String := " AND fecha_emision <= %s"

/-- Trailing ordering and limit; its argument is always appended last. -/
def fragLimit : String := " ORDER BY fecha_emision DESC LIMIT %s"

/-- The query builder: template and positional argument list, built in
the fixed order key, status?, date_from?, date_to?, limit. -/
def buildConsultaFacturas (req : FacturasRequest) (key : String) : String × List Param :=
  let q := baseConsultaQuery
  let ps : List Param := [.str key]
  let q := if truthyS req.estado then q ++ fragEstado else q
  let ps := if truthyS req.estado then ps ++ [.str (req.estado.getD "")] else ps
  let q := if truthyS req.fecha_inicio then q ++ fragFechaInicio else q
  let ps := if truthyS req.fecha_inicio then ps ++ [.str (req.fecha_inicio.getD "")] else ps
  let q := if truthyS req.fecha_fin then q ++ fragFechaFin else q
  let ps := if truthyS req.fecha_fin then ps ++ [.str (req.fecha_fin.getD "")] else ps
  (q ++ fragLimit, ps ++ [.int req.limit])

/-- Number of present optional filters of a request. -/
def presentCount (req : FacturasRequest) : Nat :=
  (if truthyS req.estado then 1 else 0)
  + (if truthyS req.fecha_inicio then 1 else 0)
  + (if truthyS req.fecha_fin then 1 else 0)

/-! ### HTTP endpoint `consultar_facturas` (facturacion_server.py 77-148) -/

/-- The success envelope `{count, data, filtros_aplicados}`; the applied
filters echo every criterion plus the authorization key. -/
structure FacturasEnvelope where
  count : Nat
  data : List FacturaRow
  filtro_estado : Option String
  filtro_fecha_inicio : Option String
  filtro_fecha_fin : Option String
  filtro_limit : Int
  filtro_agent_cif : String
deriving Repr, DecidableEq

/-- The HTTP endpoint: validation first (each failure raises a 400 before
any connection is used), then the built query is executed and the
envelope returned.  The `db` argument stands for the external store. -/
def consultarFacturas (req : FacturasRequest) (x_agent_cif : String) (db : List Factura) :
    Except HErr FacturasEnvelope :=
  match validarConsulta req with
  | some e => .error e
  | none =>
      let rows := execFacturas req x_agent_cif db
      .ok ⟨rows.length, rows, req.estado, req.fecha_inicio, req.fecha_fin, req.limit, x_agent_cif⟩

/-! ### Tool endpoint `consultar_mis_facturas` (agent_server.py 47-141) -/

/-- Tool-transport error string for an invalid status (line 68). -/
def errEstadoMis : String := "Error: Estado inv\xe1lido. Usa \x27PENDIENTE\x27 o \x27PAGADA\x27."

/-- Tool-transport error string for a malformed `fecha_inicio` (line 72). -/
def errFechaInicioMis : String :=
  "Error: Formato de fecha_inicio inv\xe1lido. Usa \x27YYYY-MM-DD\x27 (ej: 2024-11-01)."

/-- Tool-transport error string for a malformed `fecha_fin` (line 75). -/
def errFechaFinMis : String :=
  "Error: Formato de fecha_fin inv\xe1lido. Usa \x27YYYY-MM-DD\x27 (ej: 2024-11-30)."

/-- Tool-transport error string for an inverted range (line 80). -/
def errRangoMis : String := "Error: La fecha_inicio no puede ser posterior a fecha_fin."

/-- The sequential validation of `consultar_mis_facturas` (agent_server.py
lines 66-80), identical conditions to the HTTP variant with string-typed
errors. -/
def validarMis (estado fecha_inicio fecha_fin : Option String) : Option String :=
  if checkEstado estado then some errEstadoMis
  else if truthyS fecha_inicio && !validar_fecha (fecha_inicio.getD "") then
    some errFechaInicioMis
  else if truthyS fecha_fin && !validar_fecha (fecha_fin.getD "") then
    some errFechaFinMis
  else if truthyS fecha_inicio && truthyS fecha_fin
      && strGt (fecha_inicio.getD "") (fecha_fin.getD "") then
    some errRangoMis
  else none

/-- The applied-filter echo (agent_server.py lines 118-126): status when
present; a combined `periodo` when both dates are present; a single
`desde` / `hasta` entry when only one is. -/
def filtrosAplicados (estado fecha_inicio fecha_fin : Option String) : List String :=
  (if truthyS estado then ["estado: " ++ estado.getD ""] else [])
  ++ (if truthyS fecha_inicio && truthyS fecha_fin then
        ["periodo: " ++ fecha_inicio.getD "" ++ " a " ++ fecha_fin.getD ""]
      else if truthyS fecha_inicio then ["desde: " ++ fecha_inicio.getD ""]
      else if truthyS fecha_fin then ["hasta: " ++ fecha_fin.getD ""]
      else [])

/-- One invoice line of the tool summary (lines 132-137). -/
def lineaFactura (row : FacturaRow) : String :=
  "- Factura " ++ row.numero_factura ++ " (" ++ row.estado_legible ++ "): "
  ++ row.total ++ " " ++ row.moneda ++ ". Fecha: " ++ row.fecha_emision ++ "\n"

/-- The tool summary string: count, the echo of the applied filters when
any, then one line per row (lines 114-138; the `+=` loop is the
concatenation of the rendered lines in row order). -/
def resumenFacturas (estado fecha_inicio fecha_fin : Option String)
    (rows : List FacturaRow) : String :=
  let base := "Encontr\xe9 " ++ toString rows.length ++ " factura(s)"
  let fs := filtrosAplicados estado fecha_inicio fecha_fin
  let conF := if fs.isEmpty then base else base ++ " (" ++ String.intercalate ", " fs ++ ")"
  conF ++ ":\n\n" ++ String.join (rows.map lineaFactura)

/-- Explicit no-results text of the tool transport (line 112). -/
def noFacturasMsg : String := "No se encontraron facturas con esos criterios."

/-- The tool endpoint: same validation and query as the HTTP variant, the
configured `CURRENT_AGENT_CIF` passed as `agent_cif`, results rendered as
a summary string, empty results as the explicit no-results text. -/
def consultarMisFacturas (estado fecha_inicio fecha_fin : Option String) (limit : Int)
    (agent_cif : String) (db : List Factura) : String :=
  match validarMis estado fecha_inicio fecha_fin with
  | some e => e
  | none =>
      let rows := execFacturas ⟨estado, fecha_inicio, fecha_fin, limit⟩ agent_cif db
      if rows.isEmpty then noFacturasMsg
      else resumenFacturas estado fecha_inicio fecha_fin rows

/-! ### The gatekeeper (agent_server_sse.py lines 25-32) -/

/-- One row of the identity-mapping table `contacto_agentes`. -/
structure AgenteContacto where
  email : String
  cif : String
deriving Repr, DecidableEq

/-- The denial message interpolates the caller-supplied email verbatim. -/
def denegadoMsg (email : String) : String :=
  "ACCESO DENEGADO: El email " ++ email ++ " no est\xe1 autorizado."

/-- `resolve_cif_from_email`: `SELECT cif FROM contacto_agentes WHERE
LOWER(email) = LOWER(%s)` followed by `fetchone`; no row raises the
denial `ValueError`. -/
def resolve_cif_from_email (agentes : List AgenteContacto) (email : String) :
    Except String String :=
  match agentes.find? (fun a => strLower a.email == strLower email) with
  | some a => .ok a.cif
  | none => .error (denegadoMsg email)

/-- Python `str()` of one fetched invoice dict, as the SSE tools return
`str(rows)`.  The driver-specific renderings of dates and decimals are
abstracted to the stored strings; no claim depends on this text. -/
def pyStrFacturaRow (r : FacturaRow) : String :=
  "\x7b\x27numero_factura\x27: \x27" ++ r.numero_factura
  ++ "\x27, \x27estado_legible\x27: \x27" ++ r.estado_legible
  ++ "\x27, \x27fecha_emision\x27: " ++ r.fecha_emision
  ++ ", \x27moneda\x27: \x27" ++ r.moneda
  ++ "\x27, \x27total\x27: " ++ r.total ++ "\x7d"

/-- Python `str()` of the fetched invoice row list. -/
def pyStrFacturaRows (rs : List FacturaRow) : String :=
  "[" ++ String.intercalate ", " (rs.map pyStrFacturaRow) ++ "]"

/-- SSE tool `consultar_mis_facturas` (agent_server_sse.py lines 36-78):
status check, then mandatory gatekeeper resolution (a denial is caught by
the outer handler and surfaced as `Error del sistema: …`), then the same
query restricted to `estado` and `fecha_inicio` (this variant has no
`fecha_fin` parameter). -/
def consultarMisFacturasSSE (email_agente : String) (estado fecha_inicio : Option String)
    (limit : Int) (agentes : List AgenteContacto) (db : List Factura) : String :=
  if checkEstado estado then "Error: Estado inv\xe1lido."
  else
    match resolve_cif_from_email agentes email_agente with
    | .error e => "Error del sistema: " ++ e
    | .ok real_cif =>
        let rows := execFacturas ⟨estado, fecha_inicio, none, limit⟩ real_cif db
        if rows.isEmpty then "No se encontraron facturas."
        else pyStrFacturaRows rows

/-! ### Fuzzy address search (agent_server.py 145-193, agent_server_sse.py
82-109) -/

/-- One fetched row of the fuzzy query: the projected columns plus the
similarity score column. -/
structure ScoredRow where
  numero_factura : String
  estado_legible : String
  total : String
  moneda : String
  emisor_direccion_calle : String
  score : Rat
deriving Repr, DecidableEq

/-- The fuzzy query template (whitespace normalized): the search term
binds the similarity projection (first placeholder) and the trigram
filter (third placeholder); `%%` is the escaped trigram operator, not a
placeholder. -/
def fuzzyTemplate : String :=
  "SELECT numero_factura, estado_legible, total, moneda, emisor_direccion_calle, similarity(emisor_direccion_calle, %s) as score FROM view_ai_facturas WHERE emisor_cif = %s AND emisor_direccion_calle %% %s ORDER BY score DESC LIMIT 3;"

/-- The fuzzy query builder: the term is passed twice, around the
authorization key (agent_server.py line 173). -/
def buildBusqueda (query_direccion agent_cif : String) : String × List Param :=
  (fuzzyTemplate, [.str query_direccion, .str agent_cif, .str query_direccion])

/-- The fixed trigram similarity floor (`pg_trgm` default 0.3, named in
the source comment). -/
def simThreshold : Rat := 3/10

/-- `ORDER BY score DESC`. -/
def gtScore (a b : ScoredRow) : Bool := decide (b.score < a.score)

/-- Row-source semantics of the fuzzy query, with the store's trigram
similarity passed in as `sim`: keep the agent's rows whose address
clears the floor, attach the score column, order by score descending,
keep the top 3. -/
def execBusqueda (sim : String → String → Rat) (q cif : String) (db : List Factura) :
    List ScoredRow :=
  let scored := (db.filter
      (fun f => f.emisor_cif == cif && decide (simThreshold ≤ sim f.emisor_direccion_calle q))).map
    (fun f => ⟨f.numero_factura, f.estado_legible, f.total, f.moneda, f.emisor_direccion_calle,
               sim f.emisor_direccion_calle q⟩)
  (sortDesc gtScore scored).take 3

/-- Python `int()` on a non-negative rational: truncation toward zero. -/
def pyInt (x : Rat) : Int := x.num.tdiv (x.den : Int)

/-- One rendered line of the fuzzy tool answer (agent_server.py lines
184-189): the score is shown as `int(score * 100)` percent. -/
def lineaBusqueda (r : ScoredRow) : String :=
  "- [Coincidencia: " ++ toString (pyInt (r.score * 100)) ++ "%] Propiedad: \x27"
  ++ r.emisor_direccion_calle ++ "\x27 -> Factura " ++ r.numero_factura ++ " ("
  ++ r.estado_legible ++ "): " ++ r.total ++ " " ++ r.moneda ++ ".\n"

/-- Explicit no-match text of the fuzzy tool (line 179). -/
def noMatchMsg (q : String) : String :=
  "No encontr\xe9 ninguna factura relacionada con la direcci\xf3n \x27" ++ q ++ "\x27."

/-- The fuzzy search tool of agent_server.py: ranked top-3 rendering, or
the explicit no-match message naming the query. -/
def buscarFacturaPorPropiedad (sim : String → String → Rat) (query_direccion agent_cif : String)
    (db : List Factura) : String :=
  let rows := execBusqueda sim query_direccion agent_cif db
  if rows.isEmpty then noMatchMsg query_direccion
  else "Resultados para \x27" ++ query_direccion ++ "\x27:\n"
       ++ String.join (rows.map lineaBusqueda)

/-- Python `str()` of one fuzzy row (SSE variant returns `str(rows)`). -/
def pyStrScoredRow (r : ScoredRow) : String :=
  "\x7b\x27numero_factura\x27: \x27" ++ r.numero_factura
  ++ "\x27, \x27estado_legible\x27: \x27" ++ r.estado_legible
  ++ "\x27, \x27total\x27: " ++ r.total
  ++ ", \x27moneda\x27: \x27" ++ r.moneda
  ++ "\x27, \x27emisor_direccion_calle\x27: \x27" ++ r.emisor_direccion_calle
  ++ "\x27, \x27score\x27: " ++ toString (pyInt (r.score * 100)) ++ "e-2\x7d"

/-- Python `str()` of the fuzzy row list. -/
def pyStrScoredRows (rs : List ScoredRow) : String :=
  "[" ++ String.intercalate ", " (rs.map pyStrScoredRow) ++ "]"

/-- SSE tool `buscar_factura_por_propiedad` (agent_server_sse.py lines
82-109): gatekeeper resolution first (a denial surfaces as `Error: …`),
then the same fuzzy query, `"No se encontr\xf3 nada."` on empty. -/
def buscarFacturaPorPropiedadSSE (email_agente query_direccion : String)
    (agentes : List AgenteContacto) (sim : String → String → Rat) (db : List Factura) : String :=
  match resolve_cif_from_email agentes email_agente with
  | .error e => "Error: " ++ e
  | .ok real_cif =>
      let rows := execBusqueda sim query_direccion real_cif db
      if rows.isEmpty then "No se encontr\xf3 nada."
      else pyStrScoredRows rows

/-! ### Performance endpoint (performance_server.py 68-164) -/

/-- One row of `view_agente_performance_anual`, keyed by `(correo, anyo)`.
The monetary columns may be `NULL` in the store, hence `Option`. -/
structure PerfRow where
  correo : String
  anyo : Int
  ventas : Int
  facturado : Option Rat
  cobrado : Option Rat
deriving Repr, DecidableEq

/-- SQL `SUM` over an aggregated column: `NULL` inputs are skipped and an
empty (or all-`NULL`) aggregation yields `NULL`. -/
def sqlSum (l : List (Option Rat)) : Option Rat :=
  match l.filterMap id with
  | [] => none
  | v :: vs => some ((v :: vs).foldl (· + ·) 0)

/-- `float(x) if x else 0.0`: the formatter's coercion of a possibly
`None` (or zero, which Python also treats as falsy) aggregate sum. -/
def pyFloatOrZero : Option Rat → Rat
  | none => 0
  | some s => if s = 0 then 0 else s

/-- The `periodo` field of the response: the requested year, or the
all-time marker `"Hist\xf3rico Total"`. -/
inductive Periodo where
  | anual (n : Int)
  | historico
deriving Repr, DecidableEq

/-- The `data` object of the performance response.  `pendiente_cobro` is
`none` when the key is absent from the returned JSON (the annual no-data
envelope omits it). -/
structure PerfData where
  ventas : Int
  facturado : Rat
  cobrado : Rat
  pendiente_cobro : Option Rat
deriving Repr, DecidableEq

/-- The performance response envelope. -/
structure PerfResponse where
  periodo : Periodo
  tipo : String
  mensaje : Option String
  data : PerfData
deriving Repr, DecidableEq

/-- The aggregate (all-time) performance query template: the caller email
is its only argument, used directly as the data filter. -/
def perfTotalTemplate : String :=
  "SELECT SUM(ventas) as total_ventas, SUM(facturado) as total_facturado, SUM(cobrado) as total_cobrado FROM view_agente_performance_anual WHERE correo = %s"

/-- The aggregate performance query builder (performance_server.py lines
123-131): no gatekeeper resolution, the email is bound directly. -/
def buildPerfTotal (x_agent_email : String) : String × List Param :=
  (perfTotalTemplate, [.str x_agent_email])

/-- `obtener_performance` (performance_server.py lines 68-164).  Annual
branch when `anyo` is truthy: single-row lookup by `(correo, anyo)`; no
row yields the annual zero envelope (which has no `pendiente_cobro`
key); a row with a `NULL` monetary column makes `float(None)` raise,
caught as a 500.  All-time branch: SQL aggregate over the agent's rows;
`SUM` of no rows is `NULL`, detected via `total_ventas is None` and
answered with the full zero envelope; otherwise the `None`-coercions are
applied and `pendiente_cobro = facturado - cobrado` is computed here. -/
def obtener_performance (anyo : Option Int) (x_agent_email : String) (view : List PerfRow) :
    Except HErr PerfResponse :=
  if truthyI anyo then
    let y := anyo.getD 0
    match view.find? (fun r => r.correo == x_agent_email && r.anyo == y) with
    | none =>
        .ok ⟨.anual y, "Anual",
             some ("No hay datos registrados para el a\xf1o " ++ toString y ++ "."),
             ⟨0, 0, 0, none⟩⟩
    | some r =>
        match r.facturado, r.cobrado with
        | some f, some c => .ok ⟨.anual y, "Anual", none, ⟨r.ventas, f, c, some (f - c)⟩⟩
        | _, _ =>
            .error ⟨500, "float() argument must be a string or a real number, not \x27NoneType\x27"⟩
  else
    let matching := view.filter (fun r => r.correo == x_agent_email)
    if matching.isEmpty then
      .ok ⟨.historico, "Acumulado", some "No hay datos registrados para este agente.",
           ⟨0, 0, 0, some 0⟩⟩
    else
      let f := pyFloatOrZero (sqlSum (matching.map (·.facturado)))
      let c := pyFloatOrZero (sqlSum (matching.map (·.cobrado)))
      .ok ⟨.historico, "Acumulado", none,
           ⟨matching.foldl (fun a r => a + r.ventas) 0, f, c, some (f - c)⟩⟩

/-! ### Zone statistics (performance_server.py 226-267) -/

/-- One row of `view_stats_zonas`. -/
structure ZonaRow where
  zona : String
  num_ventas : Int
  precio_medio : Rat
  precio_m2_medio : Rat
  total_honorarios : Rat
deriving Repr, DecidableEq

/-- The zone statistics response: the empty-result shape carries only the
message, the success shape carries count, search kind and rows. -/
structure StatsResp where
  mensaje : Option String
  count : Option Nat
  tipo_busqueda : Option String
  data : List ZonaRow
deriving Repr, DecidableEq

/-- Python string interpolation of an `Optional[str]`: `None` renders as
`"None"`. -/
def pyOptStr : Option String → String
  | none => "None"
  | some s => s

/-- `zona ILIKE %term%`: case-insensitive substring containment. -/
def ilikeContains (hay needle : String) : Bool :=
  isInfixB (strLower needle).data (strLower hay).data

/-- `ORDER BY num_ventas DESC`. -/
def gtVentas (a b : ZonaRow) : Bool := decide (b.num_ventas < a.num_ventas)

/-- `consultar_stats_zonas` (performance_server.py lines 226-263): an
optional fuzzy zone filter, ranking by sale count, and an explicit
message envelope when nothing matches. -/
def consultarStatsZonas (nombre_zona : Option String) (limit : Int) (view : List ZonaRow) :
    Except HErr StatsResp :=
  let hits := if truthyS nombre_zona then
      view.filter (fun z => ilikeContains z.zona (nombre_zona.getD ""))
    else view
  let rows := (sortDesc gtVentas hits).take limit.toNat
  if rows.isEmpty then
    .ok ⟨some ("No se encontraron datos para la zona \x27" ++ pyOptStr nombre_zona ++ "\x27"),
         none, none, []⟩
  else
    .ok ⟨none, some rows.length,
         some (if truthyS nombre_zona then "Espec\xedfica" else "Top Mercado"), rows⟩

/-! ### A concrete store for the end-to-end example

Five invoices of agent B123: three PAGADA inside November 2024 and two
PAGADA outside that window. -/

/-- The example invoice store. -/
def tiendaC9 : List Factura :=
  [⟨"B123", "F001", "PAGADA", "2024-11-05", "EUR", "100.00", "Calle A 1"⟩,
   ⟨"B123", "F002", "PAGADA", "2024-11-10", "EUR", "200.00", "Calle A 2"⟩,
   ⟨"B123", "F003", "PAGADA", "2024-11-20", "EUR", "300.00", "Calle A 3"⟩,
   ⟨"B123", "F004", "PAGADA", "2024-10-01", "EUR", "50.00", "Calle A 4"⟩,
   ⟨"B123", "F005", "PAGADA", "2024-12-02", "EUR", "70.00", "Calle A 5"⟩]

/-! ### Helper lemmas about the descending insertion sort -/

/-- Membership in an insertion step. -/
theorem mem_insertDesc {gt : α → α → Bool} {x z : α} {l : List α} :
    z ∈ insertDesc gt x l ↔ z = x ∨ z ∈ l := by
  induction l with
  | nil => simp [insertDesc]
  | cons y ys ih =>
      rw [insertDesc]
      split
      · simp only [List.mem_cons]
      · simp only [List.mem_cons, ih]
        tauto

/-- An insertion step preserves pairwise order, for any relation the
"greater" test decides totally. -/
theorem pairwise_insertDesc {R : α → α → Prop} {gt : α → α → Bool}
    (hT : ∀ a b, gt a b = true → R a b)
    (hF : ∀ a b, gt a b = false → R b a)
    (htr : ∀ a b c, R a b → R b c → R a c)
    (x : α) {l : List α} (h : l.Pairwise R) :
    (insertDesc gt x l).Pairwise R := by
  induction l with
  | nil => simp [insertDesc]
  | cons y ys ih =>
      rw [insertDesc]
      rcases List.pairwise_cons.mp h with ⟨hy, hys⟩
      split
      next hxy =>
        refine List.pairwise_cons.mpr ⟨?_, h⟩
        intro b hb
        rcases List.mem_cons.mp hb with rfl | hb
        · exact hT x b hxy
        · exact htr x y b (hT x y hxy) (hy b hb)
      next hxy =>
        have hxy' : gt x y = false := by
          revert hxy
          cases gt x y <;> simp
        refine List.pairwise_cons.mpr ⟨?_, ih hys⟩
        intro b hb
        rcases mem_insertDesc.mp hb with hbx | hb
        · subst hbx
          exact hF _ _ hxy'
        · exact hy b hb

/-- The descending sort is pairwise ordered. -/
theorem pairwise_sortDesc {R : α → α → Prop} {gt : α → α → Bool}
    (hT : ∀ a b, gt a b = true → R a b)
    (hF : ∀ a b, gt a b = false → R b a)
    (htr : ∀ a b c, R a b → R b c → R a c)
    (l : List α) : (sortDesc gt l).Pairwise R := by
  induction l with
  | nil => exact List.Pairwise.nil
  | cons a l ih => exact pairwise_insertDesc hT hF htr a ih

/-! ### Claim theorems -/

/-- Claim C1: for every FilterCriteria and authorization key, the invoice
query builder (shared by `consultar_facturas` and
`consultar_mis_facturas`) emits a positional argument list that is
exactly the key first, then each present optional filter in the fixed
order status, date_from, date_to, then the limit last — so its length is
1 + number of present optional filters + 1 — and the template's
placeholder count equals the argument count, each appended fragment
carrying exactly one placeholder in the same order as its argument. -/
theorem C1_query_args (req : FacturasRequest) (key : String) :
    (buildConsultaFacturas req key).2.length = 1 + presentCount req + 1
    ∧ countPS (buildConsultaFacturas req key).1 = (buildConsultaFacturas req key).2.length
    ∧ (buildConsultaFacturas req key).2
        = [Param.str key]
          ++ (if truthyS req.estado then [Param.str (req.estado.getD "")] else [])
          ++ (if truthyS req.fecha_inicio then [Param.str (req.fecha_inicio.getD "")] else [])
          ++ (if truthyS req.fecha_fin then [Param.str (req.fecha_fin.getD "")] else [])
          ++ [Param.int req.limit]
    ∧ (buildConsultaFacturas req key).1
        = baseConsultaQuery
          ++ (if truthyS req.estado then fragEstado else "")
          ++ (if truthyS req.fecha_inicio then fragFechaInicio else "")
          ++ (if truthyS req.fecha_fin then fragFechaFin else "")
          ++ fragLimit
    ∧ countPS baseConsultaQuery = 1 ∧ countPS fragEstado = 1 ∧ countPS fragFechaInicio = 1
    ∧ countPS fragFechaFin = 1 ∧ countPS fragLimit = 1 := by
  cases h1 : truthyS req.estado <;> cases h2 : truthyS req.fecha_inicio <;>
    cases h3 : truthyS req.fecha_fin <;>
      refine ⟨?_, ?_, ?_, ?_, by decide, by decide, by decide, by decide, by decide⟩ <;>
        simp only [buildConsultaFacturas, presentCount, h1, h2, h3] <;> rfl

/-- Claim C3: a present (non-empty) status outside PENDIENTE / PAGADA is
rejected with the invalid-status error by all three invoice endpoints,
independently of the store; PENDIENTE, PAGADA and an absent status pass
the status check. -/
theorem C3_estado_check (s : String)
    (hne : s ≠ "") (hp : s ≠ "PENDIENTE") (hq : s ≠ "PAGADA") :
    checkEstado (some s) = true
    ∧ (∀ fi ff limit key db, consultarFacturas ⟨some s, fi, ff, limit⟩ key db = .error errEstado)
    ∧ (∀ fi ff limit key db, consultarMisFacturas (some s) fi ff limit key db = errEstadoMis)
    ∧ (∀ email fi limit ags db,
        consultarMisFacturasSSE email (some s) fi limit ags db = "Error: Estado inv\xe1lido.")
    ∧ checkEstado none = false
    ∧ checkEstado (some "PENDIENTE") = false
    ∧ checkEstado (some "PAGADA") = false := by
  have hck : checkEstado (some s) = true := by
    simp [checkEstado, truthyS, hne, hp, hq]
  refine ⟨hck, ?_, ?_, ?_, by decide, by decide, by decide⟩
  · intro fi ff limit key db
    simp [consultarFacturas, validarConsulta, hck]
  · intro fi ff limit key db
    simp [consultarMisFacturas, validarMis, hck]
  · intro email fi limit ags db
    simp [consultarMisFacturasSSE, hck]

/-- Witness for C3 at the concrete rejected status CANCELADA and the
accepted status PAGADA. -/
theorem C3_estado_check_witness :
    consultarFacturas ⟨some "CANCELADA", none, none, 5⟩ "B123" [] = .error errEstado
    ∧ consultarMisFacturas (some "CANCELADA") none none 5 "B123" [] = errEstadoMis
    ∧ checkEstado (some "PAGADA") = false := by
  obtain ⟨h1, h2, h3, h4, h5, h6, h7⟩ :=
    C3_estado_check "CANCELADA" (by decide) (by decide) (by decide)
  exact ⟨h2 none none 5 "B123" [], h3 none none 5 "B123" [], h7⟩

/-- Claim C10: validation runs to completion before any database access:
when validation fails, both invoice endpoints return the validation error
for an arbitrary store `db` — the result is the same for every store, so
the external store is untouched on validation failure. -/
theorem C10_validation_first (req : FacturasRequest) (key : String)
    (e : HErr) (m : String) (db : List Factura) :
    (validarConsulta req = some e → consultarFacturas req key db = .error e)
    ∧ (validarMis req.estado req.fecha_inicio req.fecha_fin = some m →
        consultarMisFacturas req.estado req.fecha_inicio req.fecha_fin req.limit key db = m) := by
  constructor
  · intro h
    simp [consultarFacturas, h]
  · intro h
    simp [consultarMisFacturas, h]

/-- Witness for C10: a rejected status on a non-empty store yields the
validation error with the store left out of the computation. -/
theorem C10_validation_first_witness :
    consultarFacturas ⟨some "X", none, none, 5⟩ "B1"
        [⟨"B1", "F", "PAGADA", "2024-01-01", "EUR", "1", "c"⟩] = .error errEstado
    ∧ consultarMisFacturas (some "X") none none 5 "B1"
        [⟨"B1", "F", "PAGADA", "2024-01-01", "EUR", "1", "c"⟩] = errEstadoMis := by
  obtain ⟨h1, h2⟩ := C10_validation_first ⟨some "X", none, none, 5⟩ "B1" errEstado errEstadoMis
    [⟨"B1", "F", "PAGADA", "2024-01-01", "EUR", "1", "c"⟩]
  exact ⟨h1 (by decide), h2 (by decide)⟩

/-- Claim C4 counterexample: the date string "2024-1-1" does not match
the strict YYYY-MM-DD calendar-date format, yet `strptime`-based
`validar_fecha` accepts it (`%Y-%m-%d` allows one-digit month and day),
so the endpoint proceeds without the InvalidDateFormat error the claim
requires. -/
theorem C4_cex :
    matchesStrictYYYYMMDD "2024-1-1" = false
    ∧ validar_fecha "2024-1-1" = true
    ∧ consultarFacturas ⟨none, some "2024-1-1", none, 5⟩ "B123" []
        = .ok ⟨0, [], none, some "2024-1-1", none, 5, "B123"⟩ :=
  ⟨by decide, by decide, rfl⟩

/-- Claim C4 (amended): a provided date string rejected by Python's
`strptime("%Y-%m-%d")` — four year digits, one-or-two-digit month and
day, valid calendar date; strictly wider than literal YYYY-MM-DD —
fails with the InvalidDateFormat error naming the offending field, in
both the HTTP and the tool validation; and when both provided dates are
accepted and date_from is greater than date_to (Python compares the raw
strings), validation fails with the InvalidDateRange error. -/
theorem C4_date_validation (req : FacturasRequest)
    (h0 : checkEstado req.estado = false) :
    ((truthyS req.fecha_inicio && !validar_fecha (req.fecha_inicio.getD "")) = true →
        validarConsulta req = some errFechaInicio
        ∧ validarMis req.estado req.fecha_inicio req.fecha_fin = some errFechaInicioMis)
    ∧ ((truthyS req.fecha_inicio && !validar_fecha (req.fecha_inicio.getD "")) = false →
        (truthyS req.fecha_fin && !validar_fecha (req.fecha_fin.getD "")) = true →
        validarConsulta req = some errFechaFin
        ∧ validarMis req.estado req.fecha_inicio req.fecha_fin = some errFechaFinMis)
    ∧ ((truthyS req.fecha_inicio && !validar_fecha (req.fecha_inicio.getD "")) = false →
        (truthyS req.fecha_fin && !validar_fecha (req.fecha_fin.getD "")) = false →
        (truthyS req.fecha_inicio && truthyS req.fecha_fin
          && strGt (req.fecha_inicio.getD "") (req.fecha_fin.getD "")) = true →
        validarConsulta req = some errRango
        ∧ validarMis req.estado req.fecha_inicio req.fecha_fin = some errRangoMis) := by
  refine ⟨?_, ?_, ?_⟩
  · intro h1
    constructor <;> simp [validarConsulta, validarMis, h0, h1]
  · intro h1 h2
    constructor <;> simp [validarConsulta, validarMis, h0, h1, h2]
  · intro h1 h2 h3
    constructor <;> simp [validarConsulta, validarMis, h0, h1, h2, h3]

/-- Witness for C4 at a month out of range and at an inverted range. -/
theorem C4_date_validation_witness :
    validarConsulta ⟨none, some "2024-13-01", none, 5⟩ = some errFechaInicio
    ∧ validarConsulta ⟨none, some "2024-11-30", some "2024-11-01", 5⟩ = some errRango := by
  refine ⟨((C4_date_validation ⟨none, some "2024-13-01", none, 5⟩ (by decide)).1 (by decide)).1, ?_⟩
  exact (((C4_date_validation ⟨none, some "2024-11-30", some "2024-11-01", 5⟩
    (by decide)).2.2 (by decide) (by decide) (by decide)).1)

/-- Claim C5 counterexample: on an empty identity table, the two
case-folded-equal emails "A@B.com" and "a@b.com" both fail, but not with
the same error — the denial message echoes the caller's original email
spelling, so the two errors differ. -/
theorem C5_cex :
    resolve_cif_from_email [] "A@B.com" = .error (denegadoMsg "A@B.com")
    ∧ resolve_cif_from_email [] "a@b.com" = .error (denegadoMsg "a@b.com")
    ∧ denegadoMsg "A@B.com" ≠ denegadoMsg "a@b.com" :=
  ⟨rfl, rfl, by decide⟩

/-- Claim C5 (amended): identity resolution is case-insensitive up to the
echoed email in the denial text: two emails equal after case-folding
either both resolve to the same AuthorizationKey, or both fail with the
AccessDenied error (whose message interpolates each caller's original
spelling). -/
theorem C5_case_insensitive (agentes : List AgenteContacto) (e1 e2 : String)
    (h : strLower e1 = strLower e2) :
    (∃ k, resolve_cif_from_email agentes e1 = .ok k
        ∧ resolve_cif_from_email agentes e2 = .ok k)
    ∨ (resolve_cif_from_email agentes e1 = .error (denegadoMsg e1)
       ∧ resolve_cif_from_email agentes e2 = .error (denegadoMsg e2)) := by
  have hp : (fun a : AgenteContacto => strLower a.email == strLower e1)
      = (fun a : AgenteContacto => strLower a.email == strLower e2) := by
    funext a
    rw [h]
  cases hfind : agentes.find? (fun a : AgenteContacto => strLower a.email == strLower e2) with
  | none =>
      right
      constructor <;> simp [resolve_cif_from_email, hp, hfind]
  | some a =>
      left
      exact ⟨a.cif, by simp [resolve_cif_from_email, hp, hfind],
             by simp [resolve_cif_from_email, hfind]⟩

/-- Witness for C5 at the spec's example pair over a one-row table. -/
theorem C5_case_insensitive_witness :
    (∃ k, resolve_cif_from_email [⟨"a@b.com", "B1"⟩] "A@B.com" = .ok k
        ∧ resolve_cif_from_email [⟨"a@b.com", "B1"⟩] "a@b.com" = .ok k)
    ∨ (resolve_cif_from_email [⟨"a@b.com", "B1"⟩] "A@B.com" = .error (denegadoMsg "A@B.com")
       ∧ resolve_cif_from_email [⟨"a@b.com", "B1"⟩] "a@b.com" = .error (denegadoMsg "a@b.com")) :=
  C5_case_insensitive [⟨"a@b.com", "B1"⟩] "A@B.com" "a@b.com" (by decide)

/-- Claim C2 counterexample: the performance endpoint receives the
identity (email) and never resolves it through the gatekeeper — the
built aggregate query binds the raw email directly as its only argument
— and an unknown email is answered with a zeroed success envelope, not
an AccessDenied error. -/
theorem C2_cex :
    obtener_performance none "desconocido@x.com" []
      = .ok ⟨.historico, "Acumulado", some "No hay datos registrados para este agente.",
             ⟨0, 0, 0, some 0⟩⟩
    ∧ (buildPerfTotal "desconocido@x.com").2 = [Param.str "desconocido@x.com"] :=
  ⟨rfl, rfl⟩

/-- Claim C2 (amended): the SSE tool-transport paths do resolve the email
through the gatekeeper first and surface an explicit AccessDenied error
for every unmapped email, never empty results; the performance HTTP
endpoint instead binds the email directly as the data filter and answers
an unknown email with the zeroed success envelope. -/
theorem C2_gatekeeper (agentes : List AgenteContacto) (email : String)
    (hfind : agentes.find? (fun a : AgenteContacto => strLower a.email == strLower email) = none)
    (estado fecha_inicio : Option String) (he : checkEstado estado = false)
    (limit : Int) (db : List Factura) (q : String) (sim : String → String → Rat)
    (view : List PerfRow) (hview : view.filter (fun r => r.correo == email) = []) :
    resolve_cif_from_email agentes email = .error (denegadoMsg email)
    ∧ consultarMisFacturasSSE email estado fecha_inicio limit agentes db
        = "Error del sistema: " ++ denegadoMsg email
    ∧ buscarFacturaPorPropiedadSSE email q agentes sim db = "Error: " ++ denegadoMsg email
    ∧ obtener_performance none email view
        = .ok ⟨.historico, "Acumulado", some "No hay datos registrados para este agente.",
               ⟨0, 0, 0, some 0⟩⟩
    ∧ (buildPerfTotal email).2 = [Param.str email] := by
  have hres : resolve_cif_from_email agentes email = .error (denegadoMsg email) := by
    simp [resolve_cif_from_email, hfind]
  refine ⟨hres, ?_, ?_, ?_, rfl⟩
  · simp [consultarMisFacturasSSE, he, hres]
  · simp [buscarFacturaPorPropiedadSSE, hres]
  · simp [obtener_performance, truthyI, hview]

/-- Witness for C2 at a concrete unmapped email over empty tables. -/
theorem C2_gatekeeper_witness :
    consultarMisFacturasSSE "ghost@x.com" none none 5 [] []
        = "Error del sistema: " ++ denegadoMsg "ghost@x.com"
    ∧ buscarFacturaPorPropiedadSSE "ghost@x.com" "Velazquez" [] (fun _ _ => (0 : Rat)) []
        = "Error: " ++ denegadoMsg "ghost@x.com" := by
  obtain ⟨h1, h2, h3, h4, h5⟩ := C2_gatekeeper [] "ghost@x.com" (by decide) none none
    (by decide) 5 [] "Velazquez" (fun _ _ => (0 : Rat)) [] (by decide)
  exact ⟨h2, h3⟩

/-- Claim C6 counterexample: the annual performance query with no
matching row returns a zero envelope whose `data` object has no
`pendiente_cobro` key at all (modelled as `none`), not the claimed
`pendiente_cobro: 0.0`. -/
theorem C6_cex :
    obtener_performance (some 2023) "agente@x.com" []
      = .ok ⟨.anual 2023, "Anual",
             some "No hay datos registrados para el a\xf1o 2023.",
             ⟨0, 0, 0, none⟩⟩
    ∧ (none : Option Rat) ≠ some 0 :=
  ⟨rfl, by decide⟩

/-- Claim C6 (amended): the aggregate (all-time) query with no matching
rows returns the full zero envelope including `pendiente_cobro: 0.0`;
the annual query with no matching row returns the zero envelope without
a `pendiente_cobro` key; and when rows exist, `pendiente_cobro` equals
`facturado` minus `cobrado` computed by this layer, the aggregate sums
being coerced from `None` to `0.0` before the subtraction. -/
theorem C6_performance (email : String) (view : List PerfRow) (y : Int) (hy : y ≠ 0) :
    (view.filter (fun r => r.correo == email) = [] →
        obtener_performance none email view
          = .ok ⟨.historico, "Acumulado", some "No hay datos registrados para este agente.",
                 ⟨0, 0, 0, some 0⟩⟩)
    ∧ (view.find? (fun r => r.correo == email && r.anyo == y) = none →
        obtener_performance (some y) email view
          = .ok ⟨.anual y, "Anual",
                 some ("No hay datos registrados para el a\xf1o " ++ toString y ++ "."),
                 ⟨0, 0, 0, none⟩⟩)
    ∧ (∀ a t, view.filter (fun r => r.correo == email) = a :: t →
        obtener_performance none email view
          = .ok ⟨.historico, "Acumulado", none,
                 ⟨(a :: t).foldl (fun acc r => acc + r.ventas) 0,
                  pyFloatOrZero (sqlSum ((a :: t).map (·.facturado))),
                  pyFloatOrZero (sqlSum ((a :: t).map (·.cobrado))),
                  some (pyFloatOrZero (sqlSum ((a :: t).map (·.facturado)))
                        - pyFloatOrZero (sqlSum ((a :: t).map (·.cobrado))))⟩⟩)
    ∧ (∀ rr, view.find? (fun r => r.correo == email && r.anyo == y) = some rr →
        ∀ f c, rr.facturado = some f → rr.cobrado = some c →
        obtener_performance (some y) email view
          = .ok ⟨.anual y, "Anual", none, ⟨rr.ventas, f, c, some (f - c)⟩⟩) := by
  have hty : truthyI (some y) = true := by
    simp [truthyI, hy]
  refine ⟨?_, ?_, ?_, ?_⟩
  · intro h
    simp [obtener_performance, truthyI, h]
  · intro h
    simp [obtener_performance, hty, h]
  · intro a t h
    simp [obtener_performance, truthyI, h]
  · intro rr hr f c hf hc
    simp [obtener_performance, hty, hr, hf, hc]

/-- Witness for C6: the all-time zero envelope on an empty view, and the
annual subtraction on a one-row view. -/
theorem C6_performance_witness :
    obtener_performance none "v@x.com" []
      = .ok ⟨.historico, "Acumulado", some "No hay datos registrados para este agente.",
             ⟨0, 0, 0, some 0⟩⟩
    ∧ obtener_performance (some 2023) "v@x.com" [⟨"v@x.com", 2023, 2, some 100, some 40⟩]
      = .ok ⟨.anual 2023, "Anual", none, ⟨2, 100, 40, some (100 - 40)⟩⟩ := by
  refine ⟨(C6_performance "v@x.com" [] 2023 (by decide)).1 rfl, ?_⟩
  exact (C6_performance "v@x.com" [⟨"v@x.com", 2023, 2, some 100, some 40⟩] 2023
    (by decide)).2.2.2 ⟨"v@x.com", 2023, 2, some 100, some 40⟩ rfl 100 40 rfl rfl

/-- Claim C7: the fuzzy address search passes the search term in exactly
the first and third argument positions (similarity projection and
trigram-floor filter) around the authorization key, its template has
exactly three placeholders (the `%%` operator is not one), it returns at
most 3 rows ordered by descending similarity score, a non-empty result
is rendered with each score as an integer percentage
(`lineaBusqueda` shows `int(score*100)`), and an empty result yields the
explicit no-match message naming the query instead of an empty
success. -/
theorem C7_fuzzy (sim : String → String → Rat) (q cif : String) (db : List Factura) :
    (buildBusqueda q cif).2 = [Param.str q, Param.str cif, Param.str q]
    ∧ countPS (buildBusqueda q cif).1 = 3
    ∧ (execBusqueda sim q cif db).length ≤ 3
    ∧ (execBusqueda sim q cif db).Pairwise (fun a b => b.score ≤ a.score)
    ∧ (execBusqueda sim q cif db = [] →
        buscarFacturaPorPropiedad sim q cif db = noMatchMsg q)
    ∧ (∀ r rs, execBusqueda sim q cif db = r :: rs →
        buscarFacturaPorPropiedad sim q cif db
          = "Resultados para \x27" ++ q ++ "\x27:\n"
            ++ String.join ((r :: rs).map lineaBusqueda)) := by
  refine ⟨rfl, (by decide : countPS fuzzyTemplate = 3), ?_, ?_, ?_, ?_⟩
  · simp only [execBusqueda]
    rw [List.length_take]
    exact Nat.min_le_left _ _
  · have hT : ∀ a b : ScoredRow, gtScore a b = true → b.score ≤ a.score := by
      intro a b hab
      exact le_of_lt (of_decide_eq_true hab)
    have hF : ∀ a b : ScoredRow, gtScore a b = false → a.score ≤ b.score := by
      intro a b hab
      exact le_of_not_lt (of_decide_eq_false hab)
    have htr : ∀ a b c : ScoredRow, b.score ≤ a.score → c.score ≤ b.score → c.score ≤ a.score := by
      intro a b c h1 h2
      exact le_trans h2 h1
    simp only [execBusqueda]
    exact (pairwise_sortDesc hT hF htr _).sublist (List.take_sublist _ _)
  · intro h
    simp [buscarFacturaPorPropiedad, h]
  · intro r rs h
    simp [buscarFacturaPorPropiedad, h]

/-- Witness for C7 on an empty store: the explicit no-match message. -/
theorem C7_fuzzy_witness :
    buscarFacturaPorPropiedad (fun _ _ => (0 : Rat)) "Velazquez" "B123" [] = noMatchMsg "Velazquez"
    ∧ (buildBusqueda "Velazquez" "B123").2
        = [Param.str "Velazquez", Param.str "B123", Param.str "Velazquez"] := by
  obtain ⟨h1, h2, h3, h4, h5, h6⟩ := C7_fuzzy (fun _ _ => (0 : Rat)) "Velazquez" "B123" []
  exact ⟨h5 rfl, h1⟩

/-- Claim C8: a query execution returning zero rows is answered with an
explicit no-results response distinguishable from an error on every
transport: the tool-calling invoice endpoint returns the fixed non-empty
no-results text (which is none of its error strings), the HTTP invoice
endpoint returns a success envelope with `count = 0` (while errors are
`.error` values), and the zone-statistics endpoint returns a success
envelope carrying an explicit message and empty data. -/
theorem C8_no_results (estado fecha_inicio fecha_fin : Option String) (limit : Int)
    (key : String) (db : List Factura) (nombre_zona : Option String) (zl : Int)
    (zview : List ZonaRow) :
    (validarMis estado fecha_inicio fecha_fin = none →
      execFacturas ⟨estado, fecha_inicio, fecha_fin, limit⟩ key db = [] →
      consultarMisFacturas estado fecha_inicio fecha_fin limit key db = noFacturasMsg)
    ∧ noFacturasMsg ≠ ""
    ∧ noFacturasMsg ∉ [errEstadoMis, errFechaInicioMis, errFechaFinMis, errRangoMis]
    ∧ (validarConsulta ⟨estado, fecha_inicio, fecha_fin, limit⟩ = none →
      execFacturas ⟨estado, fecha_inicio, fecha_fin, limit⟩ key db = [] →
      consultarFacturas ⟨estado, fecha_inicio, fecha_fin, limit⟩ key db
        = .ok ⟨0, [], estado, fecha_inicio, fecha_fin, limit, key⟩)
    ∧ ((sortDesc gtVentas (if truthyS nombre_zona then
          zview.filter (fun z => ilikeContains z.zona (nombre_zona.getD ""))
        else zview)).take zl.toNat = [] →
      consultarStatsZonas nombre_zona zl zview
        = .ok ⟨some ("No se encontraron datos para la zona \x27" ++ pyOptStr nombre_zona ++ "\x27"),
               none, none, []⟩) := by
  refine ⟨?_, by decide, by decide, ?_, ?_⟩
  · intro hv he
    simp [consultarMisFacturas, hv, he]
  · intro hv he
    simp [consultarFacturas, hv, he]
  · intro hz
    simp [consultarStatsZonas, hz]

/-- Witness for C8 on empty stores with empty criteria. -/
theorem C8_no_results_witness :
    consultarMisFacturas none none none 5 "B123" [] = noFacturasMsg
    ∧ consultarFacturas ⟨none, none, none, 5⟩ "B123" []
        = .ok ⟨0, [], none, none, none, 5, "B123"⟩
    ∧ consultarStatsZonas none 10 []
        = .ok ⟨some ("No se encontraron datos para la zona \x27" ++ pyOptStr none ++ "\x27"),
               none, none, []⟩ := by
  obtain ⟨h1, h2, h3, h4, h5⟩ := C8_no_results none none none 5 "B123" [] none 10 []
  exact ⟨h1 rfl rfl, h4 rfl rfl, h5 rfl⟩

set_option maxRecDepth 100000 in
/-- Claim C9: the tool-transport summary echoes exactly the applied
non-default filters — the status when present and a single combined
`periodo` entry when both dates are present (`desde` / `hasta` when only
one is) — and on the example store with three matching PAGADA invoices
inside November 2024 and two outside, the criteria
(PAGADA, 2024-11-01, 2024-11-30, limit 5) produce the summary reporting
3 invoices with the echo `estado: PAGADA, periodo: 2024-11-01 a
2024-11-30`. -/
theorem C9_resumen :
    consultarMisFacturas (some "PAGADA") (some "2024-11-01") (some "2024-11-30") 5 "B123" tiendaC9
      = "Encontr\xe9 3 factura(s) (estado: PAGADA, periodo: 2024-11-01 a 2024-11-30):\n\n- Factura F003 (PAGADA): 300.00 EUR. Fecha: 2024-11-20\n- Factura F002 (PAGADA): 200.00 EUR. Fecha: 2024-11-10\n- Factura F001 (PAGADA): 100.00 EUR. Fecha: 2024-11-05\n"
    ∧ (∀ estado fi ff, truthyS fi = true → truthyS ff = true →
        filtrosAplicados estado fi ff
          = (if truthyS estado then ["estado: " ++ estado.getD ""] else [])
            ++ ["periodo: " ++ fi.getD "" ++ " a " ++ ff.getD ""])
    ∧ (∀ estado fi ff, truthyS fi = true → truthyS ff = false →
        filtrosAplicados estado fi ff
          = (if truthyS estado then ["estado: " ++ estado.getD ""] else [])
            ++ ["desde: " ++ fi.getD ""])
    ∧ (∀ estado fi ff, truthyS fi = false → truthyS ff = true →
        filtrosAplicados estado fi ff
          = (if truthyS estado then ["estado: " ++ estado.getD ""] else [])
            ++ ["hasta: " ++ ff.getD ""])
    ∧ (∀ estado fi ff, truthyS fi = false → truthyS ff = false →
        filtrosAplicados estado fi ff
          = (if truthyS estado then ["estado: " ++ estado.getD ""] else []))
    ∧ filtrosAplicados none none none = [] := by
  refine ⟨by decide, ?_, ?_, ?_, ?_, rfl⟩ <;>
    intro estado fi ff h1 h2 <;>
      simp [filtrosAplicados, h1, h2]

/-- Witness for C9's filter-echo clauses: the example criteria, a
from-date only, a to-date only, and a status only. -/
theorem C9_resumen_witness :
    (filtrosAplicados (some "PAGADA") (some "2024-11-01") (some "2024-11-30")
      = (if truthyS (some "PAGADA") then ["estado: " ++ (some "PAGADA").getD ""] else [])
        ++ ["periodo: " ++ (some "2024-11-01").getD "" ++ " a " ++ (some "2024-11-30").getD ""])
    ∧ (filtrosAplicados none (some "2024-10-01") none
      = (if truthyS none then ["estado: " ++ (none : Option String).getD ""] else [])
        ++ ["desde: " ++ (some "2024-10-01").getD ""])
    ∧ (filtrosAplicados none none (some "2024-10-31")
      = (if truthyS none then ["estado: " ++ (none : Option String).getD ""] else [])
        ++ ["hasta: " ++ (some "2024-10-31").getD ""])
    ∧ (filtrosAplicados (some "PENDIENTE") none none
      = (if truthyS (some "PENDIENTE") then ["estado: " ++ (some "PENDIENTE").getD ""] else [])) :=
  ⟨C9_resumen.2.1 (some "PAGADA") (some "2024-11-01") (some "2024-11-30") (by decide) (by decide),
   C9_resumen.2.2.1 none (some "2024-10-01") none (by decide) (by decide),
   C9_resumen.2.2.2.1 none none (some "2024-10-31") (by decide) (by decide),
   C9_resumen.2.2.2.2.1 (some "PENDIENTE") none none (by decide) (by decide)⟩

end Facturacion
